import Mathlib

/-!
Shallow embedding of the pykraken2 broker (src/pykraken2/server.py and
src/client.py): the admission/synchronization engine and the sentinel-based
output demultiplexer, together with proofs about them.

Modelling conventions:
* the kraken2 subprocess stdin is a write-only stream; each handler is
  embedded as the ordered list of effects (event trace) it performs;
* the subprocess stdout is a finite list of lines; a loop that would block
  in `readline` after exhausting the modelled output is represented by
  `none`;
* Python strings on the ingest side are Lean `String`s; output lines on the
  demultiplexer side are lists of characters (`Line`), so that the
  `startswith` tests of the source become list-prefix tests.
-/

/-- Client/Server communication enum (`KrakenSignals` in server.py). -/
inductive KrakenSignals where
  | START
  | STOP
  | RUN_BATCH
  | NOT_DONE
  | DONE
deriving DecidableEq, Repr

/-- Integer value of each signal, as assigned in server.py. -/
def KrakenSignals.value : KrakenSignals → Nat
  | .START => 1
  | .STOP => 2
  | .RUN_BATCH => 3
  | .NOT_DONE => 50
  | .DONE => 51

/-- Constant `Server.FAKE_SEQUENCE_LENGTH`: length of the placeholder sequence in a
filler (dummy) record. -/
def FAKE_SEQUENCE_LENGTH : Nat := 50

/-- Constant `Server.K2_BATCH_SIZE`: the kraken2 `--batch-size`, and the number of
plain filler records written by `stop` to flush the subprocess buffer
(the spec's Flush Quantum). -/
def K2_BATCH_SIZE : Nat := 20

/-- Filler record text `Server.fake_sequence`: the fastq text of one filler record with the
given identifier — `@id`, 50 `T`s, `+`, 50 `!`s, each line newline-terminated. -/
def fake_sequence (sid : String) : String :=
  "@" ++ sid ++ "\n" ++ String.mk (List.replicate FAKE_SEQUENCE_LENGTH 'T') ++
    "\n+\n" ++ String.mk (List.replicate FAKE_SEQUENCE_LENGTH '!') ++ "\n"

/-- Flush block `Server.flush_seqs`: the concatenation of the `K2_BATCH_SIZE` plain filler
records `DUMMY_0 .. DUMMY_19`, written after the END filler by `stop`. -/
def flush_seqs : String :=
  String.join ((List.range K2_BATCH_SIZE).map fun x =>
    fake_sequence ("DUMMY_" ++ toString x))

/-- msgpack encoding of a small non-negative integer (positive fixint,
0..127): a single byte equal to the value.  The server only packs the
reply codes 0 and 1 and the signal values. -/
def packb (n : Nat) : List Nat := [n]

/-- A reply sent on the control socket: either msgpack-packed bytes or a
UTF-8 text acknowledgement. -/
inductive Reply where
  | packed (bytes : List Nat)
  | text (s : String)
deriving DecidableEq, Repr

/-- The server's cross-thread state: `self.lock` (is a client connected),
`self.all_seqs_submitted_event`, and `self.start_sample_event`. -/
structure ServerState where
  lock : Bool
  all_seqs_submitted : Bool
  start_sample : Bool
deriving DecidableEq, Repr

/-- One observable effect of a control-request handler, in the order the
source performs them. -/
inductive IngestEvent where
  | setAllSeqsSubmitted
  | clearAllSeqsSubmitted
  | setStartSample
  | setLock (b : Bool)
  | writeStdin (s : String)
  | flushStdin
  | sendReply (r : Reply)
deriving DecidableEq, Repr

/-- Handler `Server.start(sample_id)`: if `self.lock` is False, write the START
filler record to the subprocess stdin, set the start-sample event, clear the
all-seqs-submitted event, take the lock and reply `packb(1)`; otherwise
reply `packb(0)` and do nothing else. -/
def Server.start (st : ServerState) (sample_id : String) : List IngestEvent :=
  if st.lock = false then
    [IngestEvent.writeStdin (fake_sequence "START"),
     IngestEvent.setStartSample,
     IngestEvent.clearAllSeqsSubmitted,
     IngestEvent.setLock true,
     IngestEvent.sendReply (Reply.packed (packb 1))]
  else
    [IngestEvent.sendReply (Reply.packed (packb 0))]

/-- Handler `Server.run_batch(msg)`: write the chunk to the subprocess stdin, flush
it, and reply with a fixed acknowledgement string. -/
def Server.run_batch (msg : String) : List IngestEvent :=
  [IngestEvent.writeStdin msg,
   IngestEvent.flushStdin,
   IngestEvent.sendReply (Reply.text "Server: Chunk received")]

/-- Handler `Server.stop(sample_id)`: set the all-seqs-submitted event, write the END
filler record, write the `flush_seqs` dummy block, and reply with a text
acknowledgement. -/
def Server.stop (sample_id : String) : List IngestEvent :=
  [IngestEvent.setAllSeqsSubmitted,
   IngestEvent.writeStdin (fake_sequence "END"),
   IngestEvent.writeStdin flush_seqs,
   IngestEvent.sendReply
     (Reply.text ("Got STOP signal from client for " ++ sample_id))]

/-- Effect of a single ingest event on the shared server state. -/
def applyIngestEvent (st : ServerState) : IngestEvent → ServerState
  | IngestEvent.setAllSeqsSubmitted => { st with all_seqs_submitted := true }
  | IngestEvent.clearAllSeqsSubmitted => { st with all_seqs_submitted := false }
  | IngestEvent.setStartSample => { st with start_sample := true }
  | IngestEvent.setLock b => { st with lock := b }
  | _ => st

/-- Run an ingest event trace over the shared server state. -/
def applyIngest (st : ServerState) (t : List IngestEvent) : ServerState :=
  t.foldl applyIngestEvent st

/-- The stdin writes performed by an ingest event trace, in order. -/
def ingestWrites (t : List IngestEvent) : List String :=
  t.filterMap fun e =>
    match e with
    | IngestEvent.writeStdin s => some s
    | _ => none

/-- The replies sent by an ingest event trace, in order. -/
def ingestReplies (t : List IngestEvent) : List Reply :=
  t.filterMap fun e =>
    match e with
    | IngestEvent.sendReply r => some r
    | _ => none

/-- Dispatch of `Server.recv`: a multipart request is the packed signal frame
followed by payload frames; the dispatcher looks the handler up by signal
name and passes it `query[1]` — the first payload frame — only.  `none`
models the `IndexError` on a missing payload frame and the `AttributeError`
on a signal with no handler (NOT_DONE, DONE). -/
def Server.handleRequest (st : ServerState) (sig : KrakenSignals)
    (frames : List String) : Option (List IngestEvent) :=
  match frames with
  | [] => none
  | payload :: _ =>
    match sig with
    | KrakenSignals.START => some (Server.start st payload)
    | KrakenSignals.STOP => some (Server.stop payload)
    | KrakenSignals.RUN_BATCH => some (Server.run_batch payload)
    | KrakenSignals.NOT_DONE => none
    | KrakenSignals.DONE => none

/-- A line of subprocess stdout, as the sequence of its characters; the
Python `line.startswith(p)` becomes a list-prefix test. -/
abbrev Line := List Char

/-- The start-marker test of `Server.return_results`:
`line.startswith('U\tSTART')`. -/
def is_start_marker (l : Line) : Bool := "U\tSTART".toList.isPrefixOf l

/-- The end-marker test of `Server.return_results`:
`line.startswith('U\tEND')`. -/
def is_end_marker (l : Line) : Bool := "U\tEND".toList.isPrefixOf l

/-- The start-marker discard loop of `Server.return_results` (run while
`start_sample_event` is set): read lines, discarding each, until one passes
the start-marker test; that line is discarded too and the remaining stream
is returned.  On the modelled finite stream, `none` means the loop has
consumed all available output and is blocked in `readline`. -/
def discardToStartMarker : List Line → Option (List Line)
  | [] => none
  | l :: rest =>
    if is_start_marker l then some rest else discardToStartMarker rest

/-- The end-of-sample drain loop of `Server.return_results` (run once
`all_seqs_submitted_event` is set): read lines, accumulating into
`final_lines` every line that fails the end-marker test, until one passes
it; return the accumulated lines in order together with the unread rest of
the stream.  On the modelled finite stream, `none` means the loop has
consumed all available output and is blocked in `readline`. -/
def drainToEndMarker (acc : List Line) : List Line → Option (List Line × List Line)
  | [] => none
  | l :: rest =>
    if is_end_marker l then some (acc.reverse, rest)
    else drainToEndMarker (l :: acc) rest

/-- One observable effect of the demultiplexer (`return_results`) on the
result socket and the session slot, in source order: `send_multipart` of a
NOT_DONE payload, `send_multipart` of the DONE message (whose payload is
the packed DONE sentinel), the mandatory `recv` acknowledgement after each
send, and the release `self.lock = False`. -/
inductive DemuxEvent where
  | sendNotDone (payload : List Char)
  | sendDone
  | recvAck
  | releaseLock
deriving DecidableEq, Repr

/-- The streaming iterations of the `return_results` loop before the
all-seqs-submitted event is observed: each iteration reads a bounded chunk
of available output (`stdout.read(10000)`, modelled at line granularity by
the number of lines `c` the read returns), sends it as a NOT_DONE payload
and waits for the acknowledgement.  Returns the events and the unread rest
of the stream. -/
def streamingPhase : List Nat → List Line → List DemuxEvent × List Line
  | [], rest => ([], rest)
  | c :: cs, rest =>
    let out := streamingPhase cs (rest.drop c)
    (DemuxEvent.sendNotDone (rest.take c).flatten :: DemuxEvent.recvAck :: out.1,
     out.2)

/-- One full session of `Server.return_results`, from the start-marker
discard to the lock release, over the modelled subprocess stdout `stream`:
discard up to and including the start marker; run the streaming iterations
given by `chunks`; drain to the end marker; send the accumulated drain
buffer as a final NOT_DONE message, then the DONE message, each followed by
the acknowledgement; release the lock.  Returns the event trace and the
unread rest of the stream; `none` when a read loop exhausts the modelled
output and blocks. -/
def return_results_session (chunks : List Nat) (stream : List Line) :
    Option (List DemuxEvent × List Line) :=
  match discardToStartMarker stream with
  | none => none
  | some afterStart =>
    let s := streamingPhase chunks afterStart
    match drainToEndMarker [] s.2 with
    | none => none
    | some (finalLines, rest) =>
      some (s.1 ++
        [DemuxEvent.sendNotDone finalLines.flatten, DemuxEvent.recvAck,
         DemuxEvent.sendDone, DemuxEvent.recvAck,
         DemuxEvent.releaseLock], rest)

/-- Concatenation of all NOT_DONE payloads in a demultiplexer event trace:
the bytes the client receives and writes out. -/
def notDoneBytes : List DemuxEvent → List Char
  | [] => []
  | DemuxEvent.sendNotDone p :: ts => p ++ notDoneBytes ts
  | _ :: ts => notDoneBytes ts

/-- The payloads of the successive streaming reads: reading `rest` in
chunks of `c` lines for each `c` in the list, each payload the join of the
lines read. -/
def chunkJoins : List Nat → List Line → List (List Char)
  | [], _ => []
  | c :: cs, rest => (rest.take c).flatten :: chunkJoins cs (rest.drop c)

/-- Modelled from the spec: the external classification process writes one
tab-delimited result line per input record — column 1 a one-letter
classification flag (`C` classified / `U` unclassified), column 2 the
record identifier, then the remaining columns.  The subprocess itself is
outside src/; this reconstructs only its output line shape. -/
def k2_result_line (classified : Bool) (sid : String) (cols : String) : Line :=
  (if classified then "C" else "U").toList ++
    '\t' :: (sid.toList ++ '\t' :: cols.toList)

/-- One frame of a client multipart message: either a signal or data bytes.
(src/client.py imports its signal constants from a module outside src/;
the frame content is modelled abstractly by the signal kind.) -/
inductive ClientFrame where
  | sig (s : KrakenSignals)
  | data (s : String)
deriving DecidableEq, Repr

/-- The sequence of multipart messages `run_query` of src/client.py sends on
the control socket.  With `query[0] = STOP` (`stopQuery = true`) it sends
the single STOP message.  Otherwise it sends START, then one RUN_BATCH
message per successive non-empty `fh.read(1000000)` result (`fileChunks`)
with trailing frame `NOTDONE`, and, once the read returns empty, a last
RUN_BATCH message with payload `?` and trailing frame `DONE`, then exits
the loop. -/
def run_query_sends (stopQuery : Bool) (sample_id : String)
    (fileChunks : List String) : List (List ClientFrame) :=
  if stopQuery then
    [[ClientFrame.sig KrakenSignals.STOP, ClientFrame.data sample_id]]
  else
    [ClientFrame.sig KrakenSignals.START, ClientFrame.data sample_id] ::
      (fileChunks.map fun seq =>
        [ClientFrame.sig KrakenSignals.RUN_BATCH, ClientFrame.data seq,
         ClientFrame.data "NOTDONE"]) ++
      [[ClientFrame.sig KrakenSignals.RUN_BATCH, ClientFrame.data "?",
        ClientFrame.data "DONE"]]

/-- One observable step of `Server.run`, in source order. -/
inductive RunEvent where
  | spawnSubprocess
  | bindInputSocket
  | connectReturnSocket
  | startRecvThread
  | startReturnThread
deriving DecidableEq, Repr

/-- The message of the IOError `Server.run` raises when the control
endpoint's address is already in use. -/
def run_port_error_msg (port : Nat) : String :=
  "Port in use: Try \"kill -9 `lsof -i tcp:" ++ toString port ++ "`\""

/-- Startup `Server.run`: spawn the kraken2 subprocess, bind the input (control)
socket — re-raising a bind failure as an IOError, which ends the call —
then connect the return socket and start the recv and return_results
threads.  Returns the steps performed and the raised error message, if
any; `bindInputSocket` in the trace is the bind attempt. -/
def Server.run (bindFails : Bool) (port : Nat) :
    List RunEvent × Option String :=
  if bindFails then
    ([RunEvent.spawnSubprocess, RunEvent.bindInputSocket],
     some (run_port_error_msg port))
  else
    ([RunEvent.spawnSubprocess, RunEvent.bindInputSocket,
      RunEvent.connectReturnSocket, RunEvent.startRecvThread,
      RunEvent.startReturnThread], none)

/-! Helper lemmas about the demultiplexer phases. -/

lemma discardToStartMarker_skip (pre : List Line)
    (hpre : ∀ l ∈ pre, is_start_marker l = false)
    (s : Line) (hs : is_start_marker s = true) (rest : List Line) :
    discardToStartMarker (pre ++ s :: rest) = some rest := by
  induction pre with
  | nil => simp [discardToStartMarker, hs]
  | cons p pre ih =>
    have hp : is_start_marker p = false := hpre p (List.mem_cons_self ..)
    simp only [List.cons_append, discardToStartMarker, hp, Bool.false_eq_true,
      if_false]
    exact ih fun l hl => hpre l (List.mem_cons_of_mem _ hl)

lemma drainToEndMarker_collect (L : List Line)
    (hL : ∀ l ∈ L, is_end_marker l = false)
    (e : Line) (he : is_end_marker e = true) (post : List Line)
    (acc : List Line) :
    drainToEndMarker acc (L ++ e :: post) =
      some (acc.reverse ++ L, post) := by
  induction L generalizing acc with
  | nil => simp [drainToEndMarker, he]
  | cons l L ih =>
    have hl : is_end_marker l = false := hL l (List.mem_cons_self ..)
    simp only [List.cons_append, drainToEndMarker, hl, Bool.false_eq_true,
      if_false, List.append_eq]
    rw [ih (fun x hx => hL x (List.mem_cons_of_mem _ hx))]
    simp

lemma drainToEndMarker_none (M : List Line)
    (hM : ∀ l ∈ M, is_end_marker l = false) (acc : List Line) :
    drainToEndMarker acc M = none := by
  induction M generalizing acc with
  | nil => rfl
  | cons l M ih =>
    have hl : is_end_marker l = false := hM l (List.mem_cons_self ..)
    simp only [drainToEndMarker, hl, Bool.false_eq_true, if_false]
    exact ih (fun x hx => hM x (List.mem_cons_of_mem _ hx)) _

lemma streamingPhase_eq (cs : List Nat) (rest : List Line) :
    streamingPhase cs rest =
      ((chunkJoins cs rest).flatMap
        (fun p => [DemuxEvent.sendNotDone p, DemuxEvent.recvAck]),
       rest.drop cs.sum) := by
  induction cs generalizing rest with
  | nil => simp [streamingPhase, chunkJoins]
  | cons c cs ih =>
    simp only [streamingPhase, chunkJoins, ih, List.flatMap_cons,
      List.sum_cons, List.drop_drop, List.cons_append, List.nil_append]

lemma chunkJoins_append (cs : List Nat) (L M : List Line)
    (h : cs.sum ≤ L.length) :
    chunkJoins cs (L ++ M) = chunkJoins cs L := by
  induction cs generalizing L with
  | nil => rfl
  | cons c cs ih =>
    simp only [List.sum_cons] at h
    have hc : c ≤ L.length := le_trans (Nat.le_add_right ..) h
    simp only [chunkJoins, List.take_append_of_le_length hc,
      List.drop_append_of_le_length hc]
    rw [ih]
    rw [List.length_drop]
    omega

lemma chunkJoins_flatten (cs : List Nat) (L : List Line) :
    (chunkJoins cs L).flatten = (L.take cs.sum).flatten := by
  induction cs generalizing L with
  | nil => simp [chunkJoins]
  | cons c cs ih =>
    simp only [chunkJoins, List.flatten_cons, List.sum_cons, ih,
      List.take_add, List.flatten_append]

lemma notDoneBytes_append (t u : List DemuxEvent) :
    notDoneBytes (t ++ u) = notDoneBytes t ++ notDoneBytes u := by
  induction t with
  | nil => rfl
  | cons e t ih => cases e <;> simp [notDoneBytes, ih]

lemma notDoneBytes_chunkEvents (ps : List (List Char)) :
    notDoneBytes (ps.flatMap
      (fun p => [DemuxEvent.sendNotDone p, DemuxEvent.recvAck])) =
      ps.flatten := by
  induction ps with
  | nil => rfl
  | cons p ps ih =>
    rw [List.flatMap_cons, notDoneBytes_append, ih]
    simp [notDoneBytes]

lemma count_sendDone_chunkEvents (ps : List (List Char)) :
    (ps.flatMap
      (fun p => [DemuxEvent.sendNotDone p, DemuxEvent.recvAck])).count
        DemuxEvent.sendDone = 0 := by
  induction ps with
  | nil => rfl
  | cons p ps ih => simp [List.count_cons, ih]

/-- The one-session behaviour of `return_results` on a stream laid out as
the subprocess produces it: stale lines `pre` (none of which passes the
start-marker test), the start Marker Line `s`, the genuine result lines
`L` (none of which passes the end-marker test), the end Marker Line `e`,
and the flush output `post`.  The streaming reads happen before the STOP
request has written the END filler, so they can only consume genuine
output: `chunks.sum ≤ L.length`. -/
lemma return_results_session_spec (pre L post : List Line) (s e : Line)
    (chunks : List Nat)
    (hpre : ∀ l ∈ pre, is_start_marker l = false)
    (hs : is_start_marker s = true)
    (hL : ∀ l ∈ L, is_end_marker l = false)
    (he : is_end_marker e = true)
    (hchunks : chunks.sum ≤ L.length) :
    return_results_session chunks (pre ++ s :: (L ++ e :: post)) =
      some ((chunkJoins chunks L).flatMap
          (fun p => [DemuxEvent.sendNotDone p, DemuxEvent.recvAck]) ++
        [DemuxEvent.sendNotDone (L.drop chunks.sum).flatten,
         DemuxEvent.recvAck, DemuxEvent.sendDone, DemuxEvent.recvAck,
         DemuxEvent.releaseLock], post) := by
  have hd := discardToStartMarker_skip pre hpre s hs (L ++ e :: post)
  have hdrain := drainToEndMarker_collect (L.drop chunks.sum)
    (fun l hl => hL l (List.mem_of_mem_drop hl)) e he post []
  simp only [return_results_session, hd, streamingPhase_eq,
    List.drop_append_of_le_length hchunks, hdrain, List.reverse_nil,
    List.nil_append, chunkJoins_append chunks L (e :: post) hchunks]

/-! Claim theorems. -/

/-- C1: `Server.start(sample_id)` admission: when the session slot is IDLE
(`self.lock` is False) the handler occupies the slot, clears the
all-seqs-submitted event, arms the start-sample event, and replies with the
msgpack-packed acceptance code 1; otherwise it replies with the packed
rejection code 0 and does nothing else — no write to the subprocess stdin
and no change to the slot or the session events. -/
theorem start_admission_spec (st : ServerState) (sample_id : String) :
    (st.lock = false →
      applyIngest st (Server.start st sample_id) =
        { lock := true, all_seqs_submitted := false, start_sample := true } ∧
      ingestReplies (Server.start st sample_id) =
        [Reply.packed (packb 1)]) ∧
    (st.lock = true →
      Server.start st sample_id =
        [IngestEvent.sendReply (Reply.packed (packb 0))] ∧
      ingestWrites (Server.start st sample_id) = [] ∧
      applyIngest st (Server.start st sample_id) = st) := by
  constructor
  · intro h
    refine ⟨?_, ?_⟩ <;>
      simp [Server.start, h, applyIngest, applyIngestEvent, ingestReplies]
  · intro h
    refine ⟨?_, ?_, ?_⟩ <;>
      simp [Server.start, h, applyIngest, applyIngestEvent, ingestWrites]

/-- Witness for C1: both branches of the admission contract at concrete
states. -/
theorem start_admission_spec_witness :
    (applyIngest ⟨false, true, false⟩ (Server.start ⟨false, true, false⟩ "s1") =
      { lock := true, all_seqs_submitted := false, start_sample := true } ∧
     ingestReplies (Server.start ⟨false, true, false⟩ "s1") =
      [Reply.packed (packb 1)]) ∧
    (Server.start ⟨true, false, true⟩ "s2" =
      [IngestEvent.sendReply (Reply.packed (packb 0))] ∧
     ingestWrites (Server.start ⟨true, false, true⟩ "s2") = [] ∧
     applyIngest ⟨true, false, true⟩ (Server.start ⟨true, false, true⟩ "s2") =
      ⟨true, false, true⟩) :=
  ⟨(start_admission_spec ⟨false, true, false⟩ "s1").1 rfl,
   (start_admission_spec ⟨true, false, true⟩ "s2").2 rfl⟩

/-- C3: `Server.stop` first marks the cross-loop all-seqs-submitted signal,
then writes exactly one END-tagged filler record, then exactly
`K2_BATCH_SIZE = 20` plain filler records `DUMMY_0 .. DUMMY_19` in that
order, and then replies with an acknowledgement. -/
theorem stop_flush_spec (st : ServerState) (sample_id : String) :
    Server.stop sample_id =
      [IngestEvent.setAllSeqsSubmitted,
       IngestEvent.writeStdin (fake_sequence "END"),
       IngestEvent.writeStdin flush_seqs,
       IngestEvent.sendReply
         (Reply.text ("Got STOP signal from client for " ++ sample_id))] ∧
    ingestWrites (Server.stop sample_id) =
      [fake_sequence "END", flush_seqs] ∧
    K2_BATCH_SIZE = 20 ∧
    flush_seqs =
      String.join ((["DUMMY_0", "DUMMY_1", "DUMMY_2", "DUMMY_3", "DUMMY_4",
        "DUMMY_5", "DUMMY_6", "DUMMY_7", "DUMMY_8", "DUMMY_9", "DUMMY_10",
        "DUMMY_11", "DUMMY_12", "DUMMY_13", "DUMMY_14", "DUMMY_15",
        "DUMMY_16", "DUMMY_17", "DUMMY_18", "DUMMY_19"] : List String).map
        fake_sequence) ∧
    applyIngest st (Server.stop sample_id) =
      { st with all_seqs_submitted := true } := by
  have hnames : (List.range 20).map (fun x => "DUMMY_" ++ toString x) =
      ["DUMMY_0", "DUMMY_1", "DUMMY_2", "DUMMY_3", "DUMMY_4",
       "DUMMY_5", "DUMMY_6", "DUMMY_7", "DUMMY_8", "DUMMY_9", "DUMMY_10",
       "DUMMY_11", "DUMMY_12", "DUMMY_13", "DUMMY_14", "DUMMY_15",
       "DUMMY_16", "DUMMY_17", "DUMMY_18", "DUMMY_19"] := by decide
  refine ⟨rfl, rfl, rfl, ?_, rfl⟩
  rw [← hnames, List.map_map]
  rfl

/-- C8: when the control endpoint's address is already in use, `Server.run`
raises an IOError at the bind and returns immediately: the bind is
attempted exactly once (no retry) and neither the recv loop thread nor the
return_results loop thread is started. -/
theorem run_bind_failure_spec (port : Nat) :
    Server.run true port =
      ([RunEvent.spawnSubprocess, RunEvent.bindInputSocket],
       some (run_port_error_msg port)) ∧
    RunEvent.startRecvThread ∉ (Server.run true port).1 ∧
    RunEvent.startReturnThread ∉ (Server.run true port).1 ∧
    (Server.run true port).1.count RunEvent.bindInputSocket = 1 :=
  ⟨rfl, by simp [Server.run], by simp [Server.run], rfl⟩

/-- C9: `Server.recv` passes only the first payload frame (`query[1]`) to
every handler, so two envelopes with the same signal and first payload
frame but different later frames (in particular different continuation
flags on RUN_BATCH) are handled identically: same stdin write and flush,
same resulting state, same reply. -/
theorem dispatch_first_frame_only (st : ServerState) (sig : KrakenSignals)
    (payload : String) (extra extra' : List String) :
    Server.handleRequest st sig (payload :: extra) =
      Server.handleRequest st sig (payload :: extra') ∧
    Server.handleRequest st KrakenSignals.RUN_BATCH (payload :: extra) =
      some (Server.run_batch payload) ∧
    ingestWrites (Server.run_batch payload) = [payload] ∧
    applyIngest st (Server.run_batch payload) = st ∧
    ingestReplies (Server.run_batch payload) =
      [Reply.text "Server: Chunk received"] :=
  ⟨rfl, rfl, rfl, rfl, rfl⟩

/-- C2 fails as stated: a genuine unclassified record whose identifier
begins with `END` (here `END_OF_PLASMID_1`, not a filler identifier)
produces a result line that passes the drain's end-marker test, so for the
sample whose genuine output is that single line the demultiplexer delivers
the empty byte string instead of the line. -/
theorem demux_exact_output_counterexample :
    return_results_session []
        ["U\tSTART\t0\t50\t0:16\n".toList,
         k2_result_line false "END_OF_PLASMID_1" "0\t50\t0:16\n",
         "U\tEND\t0\t50\t0:16\n".toList] =
      some ([DemuxEvent.sendNotDone [], DemuxEvent.recvAck,
             DemuxEvent.sendDone, DemuxEvent.recvAck,
             DemuxEvent.releaseLock], ["U\tEND\t0\t50\t0:16\n".toList]) ∧
    notDoneBytes [DemuxEvent.sendNotDone [], DemuxEvent.recvAck,
      DemuxEvent.sendDone, DemuxEvent.recvAck, DemuxEvent.releaseLock] =
      [] ∧
    ([] : List Char) ≠
      [k2_result_line false "END_OF_PLASMID_1" "0\t50\t0:16\n"].flatten :=
  ⟨by decide, rfl, by decide⟩

/-- C2 (amended): for any sample whose genuine subprocess output is a
sequence of result lines `L` none of which begins with the end-marker
prefix `U<TAB>END`, the concatenation of all NOT_DONE payloads the
demultiplexer sends for that sample equals the concatenation of `L`
exactly — no filler-record result line and no marker line is delivered.
The stream carries stale filler lines `pre` (none a start marker), the
start marker `s`, `L`, the end marker `e`, and the flush output `post`;
the streaming reads happen before the END filler is written, so they
consume genuine output only (`chunks.sum ≤ L.length`). -/
theorem demux_exact_output_amended (pre L post : List Line) (s e : Line)
    (chunks : List Nat)
    (hpre : ∀ l ∈ pre, is_start_marker l = false)
    (hs : is_start_marker s = true)
    (hL : ∀ l ∈ L, is_end_marker l = false)
    (he : is_end_marker e = true)
    (hchunks : chunks.sum ≤ L.length) :
    ∃ t rest,
      return_results_session chunks (pre ++ s :: (L ++ e :: post)) =
        some (t, rest) ∧
      notDoneBytes t = L.flatten := by
  refine ⟨_, post,
    return_results_session_spec pre L post s e chunks hpre hs hL he hchunks,
    ?_⟩
  rw [notDoneBytes_append, notDoneBytes_chunkEvents, chunkJoins_flatten]
  show (L.take chunks.sum).flatten ++
    notDoneBytes (DemuxEvent.sendNotDone (L.drop chunks.sum).flatten ::
      [DemuxEvent.recvAck, DemuxEvent.sendDone, DemuxEvent.recvAck,
       DemuxEvent.releaseLock]) = L.flatten
  rw [show notDoneBytes (DemuxEvent.sendNotDone (L.drop chunks.sum).flatten ::
      [DemuxEvent.recvAck, DemuxEvent.sendDone, DemuxEvent.recvAck,
       DemuxEvent.releaseLock]) = (L.drop chunks.sum).flatten ++ [] from rfl]
  rw [List.append_nil, ← List.flatten_append, List.take_append_drop]

/-- Witness for C2 (amended): a concrete two-line sample, streamed with one
one-line read, delivered exactly. -/
theorem demux_exact_output_amended_witness :
    ∃ t rest,
      return_results_session [1]
          (["U\tDUMMY_19\t0\t50\t0:16\n".toList] ++
            "U\tSTART\t0\t50\t0:16\n".toList ::
            (["C\tread_a\t9\t50\t9:16\n".toList,
              "U\tread_b\t0\t50\t0:16\n".toList] ++
              "U\tEND\t0\t50\t0:16\n".toList ::
                ["U\tDUMMY_0\t0\t50\t0:16\n".toList])) =
        some (t, rest) ∧
      notDoneBytes t =
        (["C\tread_a\t9\t50\t9:16\n".toList,
          "U\tread_b\t0\t50\t0:16\n".toList] : List Line).flatten :=
  demux_exact_output_amended _ _ _ _ _ [1] (by decide) (by decide)
    (by decide) (by decide) (by decide)

/-- C4: per session the result endpoint carries zero or more NOT_DONE
messages and then exactly one DONE message, each send followed by the
mandatory acknowledgement; the accumulated drain buffer is the payload of
the last NOT_DONE message, and the slot is released back to IDLE only
after the end marker has been observed and the final NOT_DONE and DONE
exchanges have completed — the release is the last event of the session
trace. -/
theorem result_channel_protocol_spec (pre L post : List Line) (s e : Line)
    (chunks : List Nat)
    (hpre : ∀ l ∈ pre, is_start_marker l = false)
    (hs : is_start_marker s = true)
    (hL : ∀ l ∈ L, is_end_marker l = false)
    (he : is_end_marker e = true)
    (hchunks : chunks.sum ≤ L.length) :
    ∃ t,
      return_results_session chunks (pre ++ s :: (L ++ e :: post)) =
        some (t, post) ∧
      t = (chunkJoins chunks L).flatMap
            (fun p => [DemuxEvent.sendNotDone p, DemuxEvent.recvAck]) ++
          [DemuxEvent.sendNotDone (L.drop chunks.sum).flatten,
           DemuxEvent.recvAck, DemuxEvent.sendDone, DemuxEvent.recvAck,
           DemuxEvent.releaseLock] ∧
      t.count DemuxEvent.sendDone = 1 ∧
      t.getLast? = some DemuxEvent.releaseLock := by
  refine ⟨_,
    return_results_session_spec pre L post s e chunks hpre hs hL he hchunks,
    rfl, ?_, ?_⟩
  · rw [List.count_append, count_sendDone_chunkEvents]
    rfl
  · rw [List.getLast?_append_cons]
    rfl

/-- Witness for C4: the trace of a concrete one-chunk session ends in the
final NOT_DONE, DONE and release. -/
theorem result_channel_protocol_spec_witness :
    ∃ t,
      return_results_session [2]
          ([] ++ "U\tSTART\t0\t50\t0:16\n".toList ::
            (["C\tread_a\t9\t50\t9:16\n".toList,
              "U\tread_b\t0\t50\t0:16\n".toList] ++
              "U\tEND\t0\t50\t0:16\n".toList :: [])) =
        some (t, []) ∧
      t = (chunkJoins [2] ["C\tread_a\t9\t50\t9:16\n".toList,
            "U\tread_b\t0\t50\t0:16\n".toList]).flatMap
            (fun p => [DemuxEvent.sendNotDone p, DemuxEvent.recvAck]) ++
          [DemuxEvent.sendNotDone
            ((["C\tread_a\t9\t50\t9:16\n".toList,
               "U\tread_b\t0\t50\t0:16\n".toList] : List Line).drop
               ([2] : List Nat).sum).flatten,
           DemuxEvent.recvAck, DemuxEvent.sendDone, DemuxEvent.recvAck,
           DemuxEvent.releaseLock] ∧
      t.count DemuxEvent.sendDone = 1 ∧
      t.getLast? = some DemuxEvent.releaseLock :=
  result_channel_protocol_spec [] _ [] _ _ [2] (by decide) (by decide)
    (by decide) (by decide) (by decide)

/-- C5: in the awaiting-start-marker state the demultiplexer discards every
line up to and including the first line that passes the start-marker test,
then proceeds; the discarded prefix never reaches the client — the session
behaves exactly as it would on the stream beginning at the start marker. -/
theorem start_marker_discard_spec (pre : List Line) (s : Line)
    (rest : List Line) (chunks : List Nat)
    (hpre : ∀ l ∈ pre, is_start_marker l = false)
    (hs : is_start_marker s = true) :
    discardToStartMarker (pre ++ s :: rest) = some rest ∧
    return_results_session chunks (pre ++ s :: rest) =
      return_results_session chunks (s :: rest) := by
  have hd := discardToStartMarker_skip pre hpre s hs rest
  refine ⟨hd, ?_⟩
  have hd0 : discardToStartMarker (s :: rest) = some rest := by
    simp [discardToStartMarker, hs]
  simp only [return_results_session, hd, hd0]

/-- Witness for C5: two stale dummy lines are discarded along with the
start marker and do not change the session outcome. -/
theorem start_marker_discard_spec_witness :
    discardToStartMarker
        (["U\tDUMMY_18\t0\t50\t0:16\n".toList,
          "U\tDUMMY_19\t0\t50\t0:16\n".toList] ++
          "U\tSTART\t0\t50\t0:16\n".toList ::
            ["C\tread_a\t9\t50\t9:16\n".toList]) =
      some ["C\tread_a\t9\t50\t9:16\n".toList] ∧
    return_results_session []
        (["U\tDUMMY_18\t0\t50\t0:16\n".toList,
          "U\tDUMMY_19\t0\t50\t0:16\n".toList] ++
          "U\tSTART\t0\t50\t0:16\n".toList ::
            ["C\tread_a\t9\t50\t9:16\n".toList]) =
      return_results_session []
        ("U\tSTART\t0\t50\t0:16\n".toList ::
          ["C\tread_a\t9\t50\t9:16\n".toList]) :=
  start_marker_discard_spec _ _ _ [] (by decide) (by decide)

/-- C6 failing input: after the start marker, a stream of genuine result
lines in which the end marker never appears.  The drain loop of
`return_results` consumes every available line and is still blocked in
`readline` (modelled by `none`): the source has no bounded wait and no
timeout, so the wait does not terminate. -/
theorem drain_no_end_marker_blocks :
    return_results_session []
        ["U\tSTART\t0\t50\t0:16\n".toList,
         "C\tread_1\t1337\t50\t1337:16\n".toList,
         "U\tread_2\t0\t50\t0:16\n".toList] = none ∧
    drainToEndMarker []
        ["C\tread_1\t1337\t50\t1337:16\n".toList,
         "U\tread_2\t0\t50\t0:16\n".toList] = none :=
  ⟨by decide, by decide⟩

/-- C7 fails as stated: exhausting a one-chunk input stream, `run_query`
sends START, one RUN_BATCH with the `NOTDONE` continuation frame, and a
final RUN_BATCH whose payload is `?` — not empty — with the `DONE`
continuation frame; no STOP message is sent in the invocation. -/
theorem client_final_batch_counterexample :
    run_query_sends false "sample_A" ["@read_1\nACGT\n+\n!!!!\n"] =
      [[ClientFrame.sig KrakenSignals.START, ClientFrame.data "sample_A"],
       [ClientFrame.sig KrakenSignals.RUN_BATCH,
        ClientFrame.data "@read_1\nACGT\n+\n!!!!\n",
        ClientFrame.data "NOTDONE"],
       [ClientFrame.sig KrakenSignals.RUN_BATCH, ClientFrame.data "?",
        ClientFrame.data "DONE"]] ∧
    (∀ frames ∈ run_query_sends false "sample_A" ["@read_1\nACGT\n+\n!!!!\n"],
      ClientFrame.sig KrakenSignals.STOP ∉ frames) ∧
    ClientFrame.data "?" ≠ ClientFrame.data "" :=
  ⟨by decide, by decide, by decide⟩

/-- C7 (amended): after exhausting the input stream the client sends a
final RUN_BATCH with payload `?` and the `DONE` continuation frame and then
completes; no STOP request is sent in that invocation — a STOP message is
sent only by a separate `run_query` call whose query is `STOP`. -/
theorem client_final_batch_amended (sample_id : String)
    (fileChunks : List String) :
    run_query_sends false sample_id fileChunks =
      [[ClientFrame.sig KrakenSignals.START, ClientFrame.data sample_id]] ++
      (fileChunks.map fun seq =>
        [ClientFrame.sig KrakenSignals.RUN_BATCH, ClientFrame.data seq,
         ClientFrame.data "NOTDONE"]) ++
      [[ClientFrame.sig KrakenSignals.RUN_BATCH, ClientFrame.data "?",
        ClientFrame.data "DONE"]] ∧
    (∀ frames ∈ run_query_sends false sample_id fileChunks,
      ClientFrame.sig KrakenSignals.STOP ∉ frames) ∧
    run_query_sends true sample_id fileChunks =
      [[ClientFrame.sig KrakenSignals.STOP, ClientFrame.data sample_id]] := by
  refine ⟨rfl, ?_, rfl⟩
  intro frames hf
  have hf2 : frames ∈
      ([ClientFrame.sig KrakenSignals.START, ClientFrame.data sample_id] ::
        ((fileChunks.map fun seq =>
          [ClientFrame.sig KrakenSignals.RUN_BATCH, ClientFrame.data seq,
           ClientFrame.data "NOTDONE"]) ++
          [[ClientFrame.sig KrakenSignals.RUN_BATCH, ClientFrame.data "?",
            ClientFrame.data "DONE"]])) := hf
  rcases List.mem_cons.mp hf2 with h | h
  · subst h
    simp
  · rcases List.mem_append.mp h with h2 | h2
    · rcases List.mem_map.mp h2 with ⟨seq, hseq, h3⟩
      subst h3
      simp
    · rcases List.mem_singleton.mp h2 with rfl
      decide

/-- Witness for C7 (amended): the empty-input invocation. -/
theorem client_final_batch_amended_witness :
    run_query_sends false "s" [] =
      [[ClientFrame.sig KrakenSignals.START, ClientFrame.data "s"]] ++
      (([] : List String).map fun seq =>
        [ClientFrame.sig KrakenSignals.RUN_BATCH, ClientFrame.data seq,
         ClientFrame.data "NOTDONE"]) ++
      [[ClientFrame.sig KrakenSignals.RUN_BATCH, ClientFrame.data "?",
        ClientFrame.data "DONE"]] ∧
    ClientFrame.sig KrakenSignals.STOP ∉
      [ClientFrame.sig KrakenSignals.START, ClientFrame.data "s"] :=
  ⟨(client_final_batch_amended "s" []).1,
   (client_final_batch_amended "s" []).2.1 _ (by decide)⟩

/-- C10: marker recognition is a pure prefix test on the output line: the
drain loop treats every line passing the end-marker test (leading bytes
`U<TAB>END`) as the end marker and the discard loop treats every line
passing the start-marker test (leading bytes `U<TAB>START`) as the start
marker, regardless of the line's origin; in particular the result line of
the genuine unclassified record `END_OF_PLASMID_1` — not a filler — is
treated by the drain as the end marker. -/
theorem marker_recognition_by_leading_bytes :
    (∀ (l : Line) (acc rest : List Line), is_end_marker l = true →
      drainToEndMarker acc (l :: rest) = some (acc.reverse, rest)) ∧
    (∀ (l : Line) (rest : List Line), is_start_marker l = true →
      discardToStartMarker (l :: rest) = some rest) ∧
    is_end_marker (k2_result_line false "END_OF_PLASMID_1" "0\t50\t0:16\n") =
      true ∧
    ("END_OF_PLASMID_1" : String) ≠ "END" ∧
    drainToEndMarker []
        [k2_result_line false "END_OF_PLASMID_1" "0\t50\t0:16\n"] =
      some ([], []) := by
  refine ⟨?_, ?_, by decide, by decide, by decide⟩
  · intro l acc rest h
    simp [drainToEndMarker, h]
  · intro l rest h
    simp [discardToStartMarker, h]

/-- Witness for C10: the true END and START filler marker lines are
recognized by the two loops. -/
theorem marker_recognition_by_leading_bytes_witness :
    drainToEndMarker [] ["U\tEND\t0\t50\t0:16\n".toList] =
      some (([] : List Line).reverse, []) ∧
    discardToStartMarker ["U\tSTART\t0\t50\t0:16\n".toList] = some [] :=
  ⟨marker_recognition_by_leading_bytes.1 _ [] [] (by decide),
   marker_recognition_by_leading_bytes.2.1 _ [] (by decide)⟩
